import Mathlib

/-!
Verification of the WinDevices USB topology-discovery library.

This file is a shallow embedding of the parts of the library that the
checked properties are about:

* DeviceCommunication (src/src/WinDevices/DeviceCommunication.cpp): the
  transport that issues kernel queries against an open hub handle.  Kernel
  behaviour (DeviceIoControl outcomes) is modelled by oracle structures;
  each transport method becomes a pure function of the oracle and its
  arguments, returning Except over the typed error taxonomy of
  Exceptions.h.
* UsbDescriptorParser (src/src/WinDevices/UsbDescriptorParser.cpp): the
  bounds-checked configuration-descriptor walk.  A buffer is modelled as a
  total byte function over offsets, so that reads past the declared end
  are observable as dependence on offsets at or beyond wTotalLength.
* UsbHub::AreUsbDescriptorsCorrect (src/src/WinDevices/UsbHub.cpp): the
  string-descriptor-presence chain walk, which the source does not
  guard against zero-length descriptors, embedded with explicit fuel.
* DevicesManager::Impl::EnumeratePortsFromRootHub
  (src/src/WinDevices/DevicesManager.cpp): the recursive hub-tree walk of
  the orchestrator, modelled over an oracle giving, per hub path, what the
  populated hub exposes to the loop body.
-/

namespace WinDevices

/-- USB_DEVICE_SPEED value UsbLowSpeed from the Windows USB headers. -/
def UsbLowSpeed : Nat := 0

/-- USB_DEVICE_SPEED value UsbFullSpeed. -/
def UsbFullSpeed : Nat := 1

/-- USB_DEVICE_SPEED value UsbHighSpeed. -/
def UsbHighSpeed : Nat := 2

/-- USB_DEVICE_SPEED value UsbSuperSpeed. -/
def UsbSuperSpeed : Nat := 3

/-- USB_CONNECTION_STATUS value NoDeviceConnected (first enumerator, 0). -/
def NoDeviceConnected : Nat := 0

/-- UsbLimits::MaxPortsPerHub from UsbClassCodes.h. -/
def MaxPortsPerHub : Nat := 255

/-- UsbLimits::MaxEndpointsPerDevice from UsbClassCodes.h. -/
def MaxEndpointsPerDevice : Nat := 30

/-- USB descriptor type tag for configuration descriptors. -/
def USB_CONFIGURATION_DESCRIPTOR_TYPE : Nat := 2

/-- USB descriptor type tag for interface descriptors. -/
def USB_INTERFACE_DESCRIPTOR_TYPE : Nat := 4

/-- USB descriptor type tag for other-speed configuration descriptors. -/
def USB_OTHER_SPEED_CONFIGURATION_DESCRIPTOR_TYPE : Nat := 7

/-- Typed error taxonomy of the library: InvalidDeviceArgumentException,
InvalidDeviceHandleException (Exceptions.h), the wil I/O failures carrying
an OS error code, and the E_UNEXPECTED throws.  fuelExhausted is a
modelling artifact that stands for the unbounded source recursion being
cut off; it never occurs in any theorem below, which all supply ample
fuel. -/
inductive DevError where
  | invalidArgument
  | invalidHandle
  | ioError
  | unexpected
  | fuelExhausted
deriving DecidableEq, Repr

/-- The fields of USB_DEVICE_DESCRIPTOR that the library reads. -/
structure UsbDeviceDescriptor where
  bLength : Nat
  bDescriptorType : Nat
  bcdUSB : Nat
  bDeviceClass : Nat
  idVendor : Nat
  idProduct : Nat
  iManufacturer : Nat
  iProduct : Nat
  iSerialNumber : Nat
deriving DecidableEq, Repr

/-- The two flags of USB_NODE_CONNECTION_INFORMATION_EX_V2 that
EnumeratePortsConnectionInfo reads. -/
structure V2Flags where
  deviceIsOperatingAtSuperSpeedOrHigher : Bool
  deviceIsOperatingAtSuperSpeedPlusOrHigher : Bool
deriving DecidableEq, Repr

/-- USB_NODE_CONNECTION_INFORMATION_EX payload as filled in by the kernel
on a successful primary extended query.  PipeList is modelled as a total
function; the source copies entries 0 .. NumberOfOpenPipes - 1. -/
structure ConnInfoEx where
  connectionStatus : Nat
  currentConfigurationValue : Nat
  deviceAddress : Nat
  deviceDescriptor : UsbDeviceDescriptor
  deviceIsHub : Bool
  numberOfOpenPipes : Nat
  speed : Nat
  pipes : Nat → Nat

/-- USB_NODE_CONNECTION_INFORMATION payload (legacy query): same shape but
with the LowSpeed flag in place of a speed value. -/
structure LegacyConnInfo where
  connectionStatus : Nat
  currentConfigurationValue : Nat
  deviceAddress : Nat
  deviceDescriptor : UsbDeviceDescriptor
  deviceIsHub : Bool
  numberOfOpenPipes : Nat
  lowSpeed : Bool
  pipes : Nat → Nat

/-- HubConnectionInfo (HubConnectionInfo.h): the per-port record stored in
the connection-info mapping. -/
structure HubConnectionInfo where
  connectionIndex : Nat
  deviceDescriptor : UsbDeviceDescriptor
  currentConfigurationValue : Nat
  speed : Nat
  deviceIsHub : Bool
  deviceAddress : Nat
  numberOfOpenPipes : Nat
  connectionStatus : Nat
  pipeList : List Nat
  driverKeyName : String
deriving DecidableEq, Repr

/-- Kernel oracle for the two-phase
IOCTL_USB_GET_NODE_CONNECTION_DRIVERKEY_NAME: phase1 is the ActualLength
reported by the sizing query when it succeeds, phase2 the DriverKeyName
delivered by the retrieval when it succeeds. -/
structure DriverKeyKernel where
  phase1 : Option Nat
  phase2 : Option String

/-- sizeof USB_NODE_CONNECTION_DRIVERKEY_NAME (a ULONG index and a
one-WCHAR name array, padded). -/
def sizeofDriverKeyNameStruct : Nat := 8

/-- DeviceCommunication::GetDriverKeyName (DeviceCommunication.cpp
351-398): argument and handle validation first, then the two-phase kernel
query; kernel failures surface as I/O errors and a too-small ActualLength
as the E_UNEXPECTED throw. -/
def GetDriverKeyName (handleValid : Bool) (connectionIndex : Nat)
    (k : DriverKeyKernel) : Except DevError String :=
  if connectionIndex = 0 then .error .invalidArgument
  else if !handleValid then .error .invalidHandle
  else
    match k.phase1 with
    | none => .error .ioError
    | some requiredSize =>
      if requiredSize ≤ sizeofDriverKeyNameStruct then .error .unexpected
      else
        match k.phase2 with
        | none => .error .ioError
        | some name => .ok name

/-- Kernel oracle for the two-phase IOCTL_USB_GET_NODE_CONNECTION_NAME. -/
structure HubNameKernel where
  phase1 : Option Nat
  phase2 : Option String

/-- sizeof USB_NODE_CONNECTION_NAME (a ULONG index and a one-WCHAR name
array, padded). -/
def sizeofNodeConnectionName : Nat := 8

/-- DeviceCommunication::GetUsbExternalHubName (DeviceCommunication.cpp
557-600).  Unlike GetDriverKeyName, the source performs no index-zero or
handle validation of its own: the index is forwarded to the kernel and a
failing kernel call surfaces as the I/O error throw. -/
def GetUsbExternalHubName (k : HubNameKernel) (_index : Nat) :
    Except DevError String :=
  match k.phase1 with
  | none => .error .ioError
  | some requiredSize =>
    if requiredSize ≤ sizeofNodeConnectionName then .error .unexpected
    else
      match k.phase2 with
      | none => .error .ioError
      | some name => .ok name

/-- Kernel response to one fixed-size hub query: the DeviceIoControl
success flag, the bytesReturned count, and the payload value the caller
reads from the response structure. -/
structure FixedQueryResponse where
  success : Bool
  bytesReturned : Nat
  payload : Nat
deriving DecidableEq, Repr

/-- sizeof USB_HUB_INFORMATION_EX. -/
def sizeofHubInformationEx : Nat := 72

/-- sizeof USB_HUB_CAPABILITIES_EX. -/
def sizeofHubCapabilitiesEx : Nat := 8

/-- HubNodeInfoEx (HubNodeInfoEx.h): support flag and highest port
number. -/
structure HubNodeInfoEx where
  isHubInfoExSupport : Bool
  highestPortNumber : Nat
deriving DecidableEq, Repr

/-- HubNodeCapabilitiesEx (HubNodeCapabilitiesEx.h): the root-hub flag. -/
structure HubNodeCapabilitiesEx where
  hubIsRoot : Bool
deriving DecidableEq, Repr

/-- DeviceCommunication::GetUsbHubNodeInformationEx (DeviceCommunication.cpp
71-89): never fails; the support flag is set only when the IOCTL succeeded
and returned at least the structure size, and the highest port number is
defaulted to zero otherwise. -/
def GetUsbHubNodeInformationEx (resp : FixedQueryResponse) : HubNodeInfoEx :=
  let isSupported := resp.success && decide (sizeofHubInformationEx ≤ resp.bytesReturned)
  { isHubInfoExSupport := isSupported
    highestPortNumber := if isSupported then resp.payload else 0 }

/-- DeviceCommunication::GetUsbHubNodeCapabilitiesEx (DeviceCommunication.cpp
91-110): when the IOCTL fails or returns fewer bytes than the structure
size, the source throws (THROW_HR_MSG with the last OS error); otherwise
the root-hub flag is read from the capability bits. -/
def GetUsbHubNodeCapabilitiesEx (resp : FixedQueryResponse) :
    Except DevError HubNodeCapabilitiesEx :=
  if !resp.success || resp.bytesReturned < sizeofHubCapabilitiesEx then
    .error .ioError
  else
    .ok { hubIsRoot := resp.payload ≠ 0 }

/-- sizeof USB_NODE_CONNECTION_INFORMATION_EX_V2 (four ULONG-sized
fields). -/
def sizeofConnInfoExV2 : Nat := 16

/-- Per-hub kernel oracle for EnumeratePortsConnectionInfo: for each port,
the outcomes of the V2 query (bytesReturned and flags on DeviceIoControl
success), the primary extended query, the legacy fallback query, and the
two-phase driver-key query issued for connected devices. -/
structure HubKernel where
  v2Resp : Nat → Option (Nat × V2Flags)
  exQuery : Nat → Option ConnInfoEx
  legacyQuery : Nat → Option LegacyConnInfo
  driverKey : Nat → DriverKeyKernel

/-- The queryConnectionInfoV2 lambda (DeviceCommunication.cpp 199-219):
succeeds only when the IOCTL succeeded and returned at least the V2
structure size. -/
def queryConnectionInfoV2 (k : HubKernel) (portIndex : Nat) : Option V2Flags :=
  match k.v2Resp portIndex with
  | some (bytesReturned, flags) =>
    if sizeofConnInfoExV2 ≤ bytesReturned then some flags else none
  | none => none

/-- The populateConnectionInfo lambda (DeviceCommunication.cpp 222-251):
copies the extended-query fields, adjusts HighSpeed up to SuperSpeed when
the V2 flags say the device negotiated SuperSpeed or higher, and copies
NumberOfOpenPipes pipe entries.  The driver key is filled in later. -/
def populateConnectionInfo (connEx : ConnInfoEx) (portIndex : Nat)
    (v2Info : Option V2Flags) : HubConnectionInfo :=
  let adjustedSpeed :=
    match v2Info with
    | some v =>
      if connEx.speed = UsbHighSpeed ∧
          (v.deviceIsOperatingAtSuperSpeedOrHigher ∨
           v.deviceIsOperatingAtSuperSpeedPlusOrHigher) then
        UsbSuperSpeed
      else connEx.speed
    | none => connEx.speed
  { connectionIndex := portIndex
    connectionStatus := connEx.connectionStatus
    currentConfigurationValue := connEx.currentConfigurationValue
    deviceAddress := connEx.deviceAddress
    deviceDescriptor := connEx.deviceDescriptor
    deviceIsHub := connEx.deviceIsHub
    numberOfOpenPipes := connEx.numberOfOpenPipes
    speed := adjustedSpeed
    pipeList := (List.range connEx.numberOfOpenPipes).map connEx.pipes
    driverKeyName := "" }

/-- The queryLegacyConnectionInfo lambda (DeviceCommunication.cpp 254-296):
on IOCTL success builds the record with speed LowSpeed or FullSpeed from
the LowSpeed flag and reports whether a device is connected. -/
def queryLegacyConnectionInfo (k : HubKernel) (portIndex : Nat) :
    Option (HubConnectionInfo × Bool) :=
  match k.legacyQuery portIndex with
  | none => none
  | some connInfo =>
    let info : HubConnectionInfo :=
      { connectionIndex := portIndex
        connectionStatus := connInfo.connectionStatus
        currentConfigurationValue := connInfo.currentConfigurationValue
        deviceAddress := connInfo.deviceAddress
        deviceDescriptor := connInfo.deviceDescriptor
        deviceIsHub := connInfo.deviceIsHub
        numberOfOpenPipes := connInfo.numberOfOpenPipes
        speed := if connInfo.lowSpeed then UsbLowSpeed else UsbFullSpeed
        pipeList := (List.range connInfo.numberOfOpenPipes).map connInfo.pipes
        driverKeyName := "" }
    some (info, connInfo.connectionStatus != NoDeviceConnected)

/-- The body of the per-port loop of EnumeratePortsConnectionInfo
(DeviceCommunication.cpp 299-348).  none means the continue branch was
taken: the extended query failed and so did the legacy fallback, and the
port is omitted from the mapping.  For connected devices the driver-key
retrieval is attempted and any failure is swallowed, leaving the key
empty. -/
def processPort (k : HubKernel) (portNumber : Nat) : Option HubConnectionInfo :=
  let v2Info := queryConnectionInfoV2 k portNumber
  let step : Option HubConnectionInfo × Bool :=
    match k.exQuery portNumber with
    | some connInfoEx =>
      (some (populateConnectionInfo connInfoEx portNumber v2Info),
       connInfoEx.connectionStatus != NoDeviceConnected)
    | none =>
      match queryLegacyConnectionInfo k portNumber with
      | none => (none, false)
      | some (info, isConnected) => (some info, isConnected)
  match step with
  | (none, _) => none
  | (some info, deviceConnected) =>
    if deviceConnected then
      match GetDriverKeyName true portNumber (k.driverKey portNumber) with
      | .ok name => some { info with driverKeyName := name }
      | .error _ => some info
    else some info

/-- The entries of the connection-info mapping after the port loop, in
ascending port order: the std::map is keyed by the 1-based port number and
try_emplace is executed for ports 1 .. numberOfPorts in order, skipping
ports whose queries both failed. -/
def enumEntries (k : HubKernel) (numberOfPorts : Nat) :
    List (Nat × HubConnectionInfo) :=
  (List.range numberOfPorts).filterMap fun i =>
    match processPort k (i + 1) with
    | some info => some (i + 1, info)
    | none => none

/-- DeviceCommunication::EnumeratePortsConnectionInfo
(DeviceCommunication.cpp 183-349): argument validation (zero count, count
over the MaxPortsPerHub ceiling), handle validation, then the per-port
loop filling a cleared mapping. -/
def EnumeratePortsConnectionInfo (handleValid : Bool) (k : HubKernel)
    (numberOfPorts : Nat) : Except DevError (List (Nat × HubConnectionInfo)) :=
  if numberOfPorts = 0 then .error .invalidArgument
  else if MaxPortsPerHub < numberOfPorts then .error .invalidArgument
  else if !handleValid then .error .invalidHandle
  else .ok (enumEntries k numberOfPorts)

end WinDevices

namespace WinDevices

/-- wTotalLength of a configuration descriptor buffer: the little-endian
16-bit field at offsets 2 and 3.  A buffer is modelled as a total byte
function over offsets from the configuration-descriptor start; offsets at
or past the declared end model adjacent memory, so an out-of-bounds read
shows up as dependence on such an offset. -/
def wTotalLength (mem : Nat → Nat) : Nat := mem 2 + 256 * mem 3

/-- sizeof USB_CONFIGURATION_DESCRIPTOR and sizeof USB_INTERFACE_DESCRIPTOR
(both 9 bytes, packed). -/
def sizeofUsbConfigurationDescriptor : Nat := 9

/-- sizeof USB_INTERFACE_DESCRIPTOR. -/
def sizeofUsbInterfaceDescriptor : Nat := 9

/-- sizeof USB_INTERFACE_DESCRIPTOR2 (usbdesc.h: nine byte-sized fields
followed by a 16-bit field; without a packing pragma the 16-bit field is
aligned to offset 10, so the structure occupies 12 bytes).  No theorem in
this file depends on the exact value: no input below carries a descriptor
of declared length 11 or 12. -/
def sizeofUsbInterfaceDescriptor2 : Nat := 12

/-- UsbDescriptorParser::IsDescriptorInBounds (UsbDescriptorParser.cpp
169-199) for a non-null cursor at offset pos with buffer end dEnd: the
2-byte common header must fit, the full descriptor per its declared length
must fit, and the declared length must be nonzero. -/
def isDescriptorInBounds (mem : Nat → Nat) (dEnd pos : Nat) : Bool :=
  if dEnd < pos + 2 then false
  else if dEnd < pos + mem pos then false
  else if mem pos = 0 then false
  else true

/-- UsbDescriptorParser::ValidateConfigurationDescriptor
(UsbDescriptorParser.cpp 61-88) for a non-null buffer: minimum declared
length, configuration type tag, and minimum total length. -/
def validateConfigurationDescriptor (mem : Nat → Nat) : Bool :=
  if mem 0 < sizeofUsbConfigurationDescriptor then false
  else if mem 1 ≠ USB_CONFIGURATION_DESCRIPTOR_TYPE then false
  else if wTotalLength mem < sizeofUsbConfigurationDescriptor then false
  else true

/-- The sub-descriptor loop of UsbDescriptorParser::ExtractInterfaceClass
(UsbDescriptorParser.cpp 22-32).  The loop guard is IsDescriptorInBounds;
at an interface descriptor the bInterfaceClass byte at offset 5 of the
cursor is returned, otherwise the cursor advances by the declared length.
The recursion is well founded: an accepted cursor has a nonzero declared
length and stays at most dEnd, so dEnd - pos strictly decreases.  This
totality is the embedding-level proof that the source loop terminates on
every buffer. -/
def walkInterfaceClass (mem : Nat → Nat) (dEnd pos : Nat) : Option Nat :=
  if h : pos + 2 ≤ dEnd ∧ pos + mem pos ≤ dEnd ∧ mem pos ≠ 0 then
    if mem (pos + 1) = USB_INTERFACE_DESCRIPTOR_TYPE then
      some (mem (pos + 5))
    else
      walkInterfaceClass mem dEnd (pos + mem pos)
  else
    none
termination_by dEnd - pos
decreasing_by
  obtain ⟨h1, h2, h3⟩ := h
  omega

/-- UsbDescriptorParser::ExtractInterfaceClass (UsbDescriptorParser.cpp
7-35) for a non-null buffer: validate the configuration header, skip it by
its own declared length, then walk the sub-descriptors. -/
def extractInterfaceClass (mem : Nat → Nat) : Option Nat :=
  if validateConfigurationDescriptor mem then
    walkInterfaceClass mem (wTotalLength mem) (mem 0)
  else
    none

/-- The chain walk of UsbHub::AreUsbDescriptorsCorrect (UsbHub.cpp
188-239).  Its loop guard differs from the parser's primitive: the header
check is strict, and a zero declared length is not rejected, so a
zero-length descriptor of a type outside the switch never advances the
cursor and the source loop runs forever; the fuel parameter makes the
embedding total, with none standing for that divergence.  Every case of
the switch ends in continue, so the trailing break of the source is
unreachable and the walk proceeds through the whole chain. -/
def walkAreUsbDescriptorsCorrect (mem : Nat → Nat) (dEnd : Nat) :
    Nat → Nat → Option Bool
  | 0, _ => none
  | fuel + 1, pos =>
    if pos + 2 < dEnd ∧ pos + mem pos ≤ dEnd then
      if mem (pos + 1) = USB_CONFIGURATION_DESCRIPTOR_TYPE ∨
          mem (pos + 1) = USB_OTHER_SPEED_CONFIGURATION_DESCRIPTOR_TYPE then
        if mem pos ≠ sizeofUsbConfigurationDescriptor then some false
        else if mem (pos + 6) ≠ 0 then some true
        else walkAreUsbDescriptorsCorrect mem dEnd fuel (pos + mem pos)
      else if mem (pos + 1) = USB_INTERFACE_DESCRIPTOR_TYPE then
        if mem pos ≠ sizeofUsbInterfaceDescriptor ∧
            mem pos ≠ sizeofUsbInterfaceDescriptor2 then some false
        else if mem (pos + 8) ≠ 0 then some true
        else walkAreUsbDescriptorsCorrect mem dEnd fuel (pos + mem pos)
      else walkAreUsbDescriptorsCorrect mem dEnd fuel (pos + mem pos)
    else some false

/-- UsbHub::AreUsbDescriptorsCorrect (UsbHub.cpp 157-242): true at once
when any of the device descriptor's three string indices is nonzero;
otherwise the chain walk starting at the configuration header itself (the
source does not skip past it).  Fuel wTotalLength + 1 covers every
terminating run: each accepted cursor lies strictly below dEnd, and a run
that never returns inside the switch advances through strictly increasing
cursor positions. -/
def areUsbDescriptorsCorrect (dd : UsbDeviceDescriptor) (mem : Nat → Nat) :
    Option Bool :=
  if dd.iManufacturer ≠ 0 ∨ dd.iProduct ≠ 0 ∨ dd.iSerialNumber ≠ 0 then
    some true
  else
    walkAreUsbDescriptorsCorrect mem (wTotalLength mem) (wTotalLength mem + 1) 0

/-- What the orchestrator loop observes about one port of a populated hub
(DevicesManager.cpp 117-210): the connection status (reduced to the
connected test of line 119), the DeviceIsHub flag, whether the registry
scan found a record whose driver key equals the port's resolved driver key
(the bus-layer record; pure in-memory string matching that cannot fail),
the result of resolving that record's device path for recursion
(DeviceInfo construction, PopulateUsbInfo and GetDevicePath, which can
fail), and the outcome of FillConfigDescriptor for a non-hub device (none
when GetConfigDescriptor yields no descriptor, otherwise the stored
descriptor-info record, abstracted as a number, like device paths). -/
structure PortView where
  connected : Bool
  deviceIsHub : Bool
  hasBusLayerDevice : Bool
  childPathResult : Except DevError Nat
  fillResult : Option Nat
deriving Repr

instance {a : Type} [DecidableEq a] : DecidableEq (Except DevError a) := fun x y =>
  match x, y with
  | .ok u, .ok v =>
    if h : u = v then isTrue (by rw [h]) else isFalse (fun hc => h (Except.ok.inj hc))
  | .ok _, .error _ => isFalse (fun hc => Except.noConfusion hc)
  | .error _, .ok _ => isFalse (fun hc => Except.noConfusion hc)
  | .error u, .error v =>
    if h : u = v then isTrue (by rw [h]) else isFalse (fun hc => h (Except.error.inj hc))

instance : DecidableEq PortView := fun a b =>
  match a, b with
  | ⟨c1, d1, b1, p1, f1⟩, ⟨c2, d2, b2, p2, f2⟩ =>
    decidable_of_iff (c1 = c2 ∧ d1 = d2 ∧ b1 = b2 ∧ p1 = p2 ∧ f1 = f2)
      (by constructor
          · rintro ⟨rfl, rfl, rfl, rfl, rfl⟩; rfl
          · intro hc; cases hc; exact ⟨rfl, rfl, rfl, rfl, rfl⟩)

/-- Oracle for the orchestrator: per hub path, the outcome of building a
UsbHub on it and calling PopulateInfo (which can fail at the open, the
node-information query, or the capability query), together with the
per-port views. -/
structure OrchKernel where
  populateHub : Nat → Except DevError (List (Nat × PortView))

/-- One iteration of the first port loop of EnumeratePortsFromRootHub
(DevicesManager.cpp 117-210), parameterised by the recursive call go.
The loop body contains no exception handler: a failure to resolve the
child path or a failure inside the recursive enumeration propagates.
Yields the records contributed by a child-hub subtree (the non-hub branch
stores into the hub's descriptor map instead, picked up by ownRecords
below). -/
def processOrchPort (go : Nat → Except DevError (List Nat)) (pv : PortView) :
    Except DevError (List Nat) :=
  if !pv.connected then .ok []
  else if !pv.hasBusLayerDevice then .ok []
  else if pv.deviceIsHub then
    match pv.childPathResult with
    | .error e => .error e
    | .ok childPath => go childPath
  else .ok []

/-- The first port loop: ports in map order, errors propagating out of the
loop (and out of EnumeratePortsFromRootHub) at the failing port, leaving
later ports unprocessed. -/
def processOrchPorts (go : Nat → Except DevError (List Nat)) :
    List (Nat × PortView) → Except DevError (List Nat)
  | [] => .ok []
  | (_, pv) :: rest =>
    match processOrchPort go pv with
    | .error e => .error e
    | .ok recs =>
      match processOrchPorts go rest with
      | .error e => .error e
      | .ok moreRecs => .ok (recs ++ moreRecs)

/-- The records the current hub itself contributes: the second loop
(DevicesManager.cpp 216-339) builds one DeviceResultantInfo per entry of
the hub's descriptor map, which FillConfigDescriptor filled for connected
non-hub ports with a bus-layer record whose descriptor fetch succeeded. -/
def ownRecords (ports : List (Nat × PortView)) : List Nat :=
  ports.filterMap fun np =>
    if np.2.connected && np.2.hasBusLayerDevice && !np.2.deviceIsHub then
      np.2.fillResult
    else none

/-- DevicesManager::Impl::EnumeratePortsFromRootHub (DevicesManager.cpp
97-340): populate the hub (failures propagate to the caller — there is no
handler anywhere on this path, including the controller loop of
EnumerateUsbDevices at lines 364-381), run the port loop, then append this
hub's own records after the records of recursively enumerated child hubs
(children are pushed to the shared device list during the first loop,
before the second loop runs).  fuel bounds the source's unbounded
recursion; every theorem below supplies enough fuel for fuelExhausted
never to arise. -/
def enumeratePortsFromRootHub (k : OrchKernel) :
    Nat → Nat → Except DevError (List Nat)
  | 0, _ => .error .fuelExhausted
  | fuel + 1, hubPath =>
    match k.populateHub hubPath with
    | .error e => .error e
    | .ok ports =>
      match processOrchPorts (enumeratePortsFromRootHub k fuel) ports with
      | .error e => .error e
      | .ok childRecs => .ok (childRecs ++ ownRecords ports)

end WinDevices

namespace WinDevices

/-- Whether a V2 query outcome reports SuperSpeed-or-higher negotiation:
the query succeeded and one of its two flags is set.  Used to state the
speed-adjustment property. -/
def v2SaysSuper : Option V2Flags → Bool
  | some v =>
    v.deviceIsOperatingAtSuperSpeedOrHigher ||
      v.deviceIsOperatingAtSuperSpeedPlusOrHigher
  | none => false

/-- The claimed address invariant over the entries of a connection-info
mapping: every connected entry's device address lies in 1..127, and no two
connected entries share an address.  Stated from the claim's words in
order to refute it against the embedded source. -/
def connectedAddressesValid (l : List (Nat × HubConnectionInfo)) : Prop :=
  (∀ pc ∈ l, pc.2.connectionStatus ≠ NoDeviceConnected →
    1 ≤ pc.2.deviceAddress ∧ pc.2.deviceAddress ≤ 127) ∧
  ((l.filter fun pc => pc.2.connectionStatus != NoDeviceConnected).map
    fun pc => pc.2.deviceAddress).Nodup

instance (l : List (Nat × HubConnectionInfo)) :
    Decidable (connectedAddressesValid l) := by
  unfold connectedAddressesValid
  infer_instance

/-- A device descriptor whose three string indices are all zero (other
fields arbitrary but concrete). -/
def ddNoStringIndices : UsbDeviceDescriptor :=
  { bLength := 18, bDescriptorType := 1, bcdUSB := 512, bDeviceClass := 0
    idVendor := 2385, idProduct := 5931, iManufacturer := 0, iProduct := 0
    iSerialNumber := 0 }

/-- A kernel under which every per-port query fails: for any port, the
extended query and the legacy fallback both fail, so the source takes the
continue branch and omits the port. -/
def kAllQueriesFail : HubKernel :=
  { v2Resp := fun _ => none
    exQuery := fun _ => none
    legacyQuery := fun _ => none
    driverKey := fun _ => { phase1 := none, phase2 := none } }

/-- A fully successful two-port kernel used to instantiate the amended
per-port totality hypothesis. -/
def kTwoPortsOk : HubKernel :=
  { v2Resp := fun _ => none
    exQuery := fun _ => some
      { connectionStatus := 1, currentConfigurationValue := 1
        deviceAddress := 5, deviceDescriptor := ddNoStringIndices
        deviceIsHub := false, numberOfOpenPipes := 2, speed := 2
        pipes := fun i => i }
    legacyQuery := fun _ => none
    driverKey := fun _ => { phase1 := some 20, phase2 := some "DRVKEY" } }

/-- A kernel whose extended query reports, on every port, a connected
device with device address 0 — the address the source stores unchanged,
since it performs no range or uniqueness validation. -/
def kAddressZero : HubKernel :=
  { v2Resp := fun _ => none
    exQuery := fun _ => some
      { connectionStatus := 1, currentConfigurationValue := 1
        deviceAddress := 0, deviceDescriptor := ddNoStringIndices
        deviceIsHub := false, numberOfOpenPipes := 0, speed := 1
        pipes := fun _ => 0 }
    legacyQuery := fun _ => none
    driverKey := fun _ => { phase1 := none, phase2 := none } }

/-- The configuration buffer for the out-of-bounds read: declared total
length 11, and after the 9-byte header one sub-descriptor with declared
length 2 and the interface type tag.  IsDescriptorInBounds accepts it (the
2 declared bytes fit exactly), and the source then reads bInterfaceClass
at cursor offset 5 — absolute offset 14, past the declared end. -/
def bufOobRead : List Nat := [9, 2, 11, 0, 0, 0, 0, 0, 0, 2, 4]

/-- The buffer as a memory whose bytes beyond the declared end are zero. -/
def memOobZero : Nat → Nat := fun i => bufOobRead.getD i 0

/-- The same memory except that the byte at offset 14 — past the declared
end 11 — is 7.  The two memories agree on every offset below the declared
end. -/
def memOobSeven : Nat → Nat := fun i => if i = 14 then 7 else bufOobRead.getD i 0

/-- Chain for the AreUsbDescriptorsCorrect walk: a 9-byte configuration
header with iConfiguration 0 and total length 25, a 7-byte endpoint-style
descriptor, then a 9-byte interface descriptor with iInterface 1.  The
walk inspects all three and returns true at the third. -/
def bufChainFound : List Nat :=
  [9, 2, 25, 0, 1, 1, 0, 128, 50,
   7, 5, 129, 2, 64, 0, 1,
   9, 4, 0, 0, 2, 8, 6, 80, 1]

/-- Identical to bufChainFound through the header and the entire first
sub-descriptor (offsets 0..15) — only the final iInterface byte differs —
yet the walk result flips, so the result is not determined by the first
descriptor inspected. -/
def bufChainNotFound : List Nat :=
  [9, 2, 25, 0, 1, 1, 0, 128, 50,
   7, 5, 129, 2, 64, 0, 1,
   9, 4, 0, 0, 2, 8, 6, 80, 0]

/-- bufChainFound as a memory. -/
def memChainFound : Nat → Nat := fun i => bufChainFound.getD i 0

/-- bufChainNotFound as a memory. -/
def memChainNotFound : Nat → Nat := fun i => bufChainNotFound.getD i 0

/-- Orchestrator port view: a connected child hub whose device path
resolves to hub path 1. -/
def pvChildHub : PortView :=
  { connected := true, deviceIsHub := true, hasBusLayerDevice := true
    childPathResult := .ok 1, fillResult := none }

/-- Orchestrator port view: a connected non-hub device whose descriptor
fetch stored record 42. -/
def pvLeafDevice : PortView :=
  { connected := true, deviceIsHub := false, hasBusLayerDevice := true
    childPathResult := .ok 99, fillResult := some 42 }

/-- The root hub of the failure scenario: port 1 hosts the child hub,
port 2 the leaf device. -/
def portsRootC2 : List (Nat × PortView) := [(1, pvChildHub), (2, pvLeafDevice)]

/-- Orchestrator kernel in which populating the root hub (path 0) succeeds
with the two ports above, while populating any other hub — in particular
the child hub at path 1 — fails. -/
def kChildHubFails : OrchKernel :=
  { populateHub := fun h => if h = 0 then .ok portsRootC2 else .error .ioError }

end WinDevices

namespace WinDevices

/-- A primary extended query response reporting a connected device at
HighSpeed. -/
def ceHigh : ConnInfoEx :=
  { connectionStatus := 1, currentConfigurationValue := 1, deviceAddress := 4
    deviceDescriptor := ddNoStringIndices, deviceIsHub := false
    numberOfOpenPipes := 0, speed := 2, pipes := fun _ => 0 }

/-- A kernel misreporting a SuperSpeed device as HighSpeed through the
primary query while the V2 flags reveal SuperSpeed-or-higher. -/
def kSuperAsHigh : HubKernel :=
  { v2Resp := fun _ => some (16,
      { deviceIsOperatingAtSuperSpeedOrHigher := true
        deviceIsOperatingAtSuperSpeedPlusOrHigher := false })
    exQuery := fun _ => some ceHigh
    legacyQuery := fun _ => none
    driverKey := fun _ => { phase1 := none, phase2 := none } }

/-- The record EnumeratePortsConnectionInfo stores for port 1 under
kSuperAsHigh: speed adjusted up to SuperSpeed. -/
def entrySuper : HubConnectionInfo :=
  { connectionIndex := 1, deviceDescriptor := ddNoStringIndices
    currentConfigurationValue := 1, speed := 3, deviceIsHub := false
    deviceAddress := 4, numberOfOpenPipes := 0, connectionStatus := 1
    pipeList := [], driverKeyName := "" }

/-- A legacy query response with the low-speed flag set. -/
def legLow : LegacyConnInfo :=
  { connectionStatus := 1, currentConfigurationValue := 1, deviceAddress := 3
    deviceDescriptor := ddNoStringIndices, deviceIsHub := false
    numberOfOpenPipes := 0, lowSpeed := true, pipes := fun _ => 0 }

/-- A kernel on which the primary extended query fails and the legacy
fallback succeeds with the low-speed flag set. -/
def kLegacyLow : HubKernel :=
  { v2Resp := fun _ => none
    exQuery := fun _ => none
    legacyQuery := fun _ => some legLow
    driverKey := fun _ => { phase1 := none, phase2 := none } }

/-- The record stored for port 1 under kLegacyLow: speed LowSpeed. -/
def entryLegacy : HubConnectionInfo :=
  { connectionIndex := 1, deviceDescriptor := ddNoStringIndices
    currentConfigurationValue := 1, speed := 0, deviceIsHub := false
    deviceAddress := 3, numberOfOpenPipes := 0, connectionStatus := 1
    pipeList := [], driverKeyName := "" }

/-- The record stored for port 1 under kTwoPortsOk: two pipes copied from
the response and the driver key resolved. -/
def entryTwoPorts : HubConnectionInfo :=
  { connectionIndex := 1, deviceDescriptor := ddNoStringIndices
    currentConfigurationValue := 1, speed := 2, deviceIsHub := false
    deviceAddress := 5, numberOfOpenPipes := 2, connectionStatus := 1
    pipeList := [0, 1], driverKeyName := "DRVKEY" }

end WinDevices

namespace WinDevices

/-- Every record built by the legacy fallback carries its port index as the
stored connection index, a pipe list of exactly NumberOfOpenPipes entries,
the kernel-reported device address, and the two-valued legacy speed. -/
theorem queryLegacy_fields {k : HubKernel} {p : Nat}
    {pr : HubConnectionInfo × Bool}
    (h : queryLegacyConnectionInfo k p = some pr) :
    ∃ li, k.legacyQuery p = some li ∧
      pr.1.connectionIndex = p ∧
      pr.1.numberOfOpenPipes = pr.1.pipeList.length ∧
      pr.1.deviceAddress = li.deviceAddress ∧
      pr.1.connectionStatus = li.connectionStatus ∧
      pr.1.speed = (if li.lowSpeed then UsbLowSpeed else UsbFullSpeed) := by
  unfold queryLegacyConnectionInfo at h
  cases hleg : k.legacyQuery p with
  | none => rw [hleg] at h; exact absurd h (by simp)
  | some li =>
    rw [hleg] at h
    simp only [Option.some.injEq] at h
    refine ⟨li, rfl, ?_⟩
    subst h
    refine ⟨rfl, ?_, rfl, rfl, rfl⟩
    simp

/-- Every record built from a successful primary extended query carries its
port index, a pipe list of exactly NumberOfOpenPipes entries, and the
kernel-reported address and status; its speed is the reported speed unless
the report was HighSpeed and the V2 flags say SuperSpeed or higher, in
which case it is SuperSpeed. -/
theorem populateConnectionInfo_fields (ce : ConnInfoEx) (p : Nat)
    (v2 : Option V2Flags) :
    (populateConnectionInfo ce p v2).connectionIndex = p ∧
    (populateConnectionInfo ce p v2).numberOfOpenPipes =
      (populateConnectionInfo ce p v2).pipeList.length ∧
    (populateConnectionInfo ce p v2).deviceAddress = ce.deviceAddress ∧
    (populateConnectionInfo ce p v2).connectionStatus = ce.connectionStatus := by
  refine ⟨rfl, ?_, rfl, rfl⟩
  simp [populateConnectionInfo]

/-- Speed stored by populateConnectionInfo, case split exactly as in the
source: the V2 adjustment applies when the V2 query succeeded and the
primary speed is HighSpeed with a SuperSpeed-or-higher flag set. -/
theorem populateConnectionInfo_speed (ce : ConnInfoEx) (p : Nat)
    (v2 : Option V2Flags) :
    (populateConnectionInfo ce p v2).speed =
      match v2 with
      | some v =>
        if ce.speed = UsbHighSpeed ∧
            (v.deviceIsOperatingAtSuperSpeedOrHigher ∨
             v.deviceIsOperatingAtSuperSpeedPlusOrHigher) then
          UsbSuperSpeed
        else ce.speed
      | none => ce.speed := rfl

/-- The only fields processPort changes relative to the record built by the
query helpers is the driver key; everything else is preserved. -/
theorem processPort_cases {k : HubKernel} {p : Nat} {c : HubConnectionInfo}
    (h : processPort k p = some c) :
    (∃ ce, k.exQuery p = some ce ∧
      (c = populateConnectionInfo ce p (queryConnectionInfoV2 k p) ∨
       ∃ name,
        c = { populateConnectionInfo ce p (queryConnectionInfoV2 k p) with
                driverKeyName := name })) ∨
    (k.exQuery p = none ∧ ∃ pr, queryLegacyConnectionInfo k p = some pr ∧
      (c = pr.1 ∨ ∃ name, c = { pr.1 with driverKeyName := name })) := by
  unfold processPort at h
  cases hex : k.exQuery p with
  | some ce =>
    rw [hex] at h
    simp only at h
    left
    refine ⟨ce, rfl, ?_⟩
    by_cases hcon : (ce.connectionStatus != NoDeviceConnected) = true
    · rw [if_pos hcon] at h
      cases hdk : GetDriverKeyName true p (k.driverKey p) with
      | ok name =>
        rw [hdk] at h
        simp only [Option.some.injEq] at h
        exact Or.inr ⟨name, h.symm⟩
      | error e =>
        rw [hdk] at h
        simp only [Option.some.injEq] at h
        exact Or.inl h.symm
    · rw [if_neg hcon] at h
      simp only [Option.some.injEq] at h
      exact Or.inl h.symm
  | none =>
    rw [hex] at h
    simp only at h
    right
    cases hleg : queryLegacyConnectionInfo k p with
    | none => rw [hleg] at h; exact absurd h (by simp)
    | some pr =>
      obtain ⟨info, b⟩ := pr
      rw [hleg] at h
      simp only at h
      refine ⟨rfl, (info, b), rfl, ?_⟩
      cases b with
      | true =>
        rw [if_pos rfl] at h
        cases hdk : GetDriverKeyName true p (k.driverKey p) with
        | ok name =>
          rw [hdk] at h
          simp only [Option.some.injEq] at h
          exact Or.inr ⟨name, h.symm⟩
        | error e =>
          rw [hdk] at h
          simp only [Option.some.injEq] at h
          exact Or.inl h.symm
      | false =>
        rw [if_neg Bool.false_ne_true] at h
        simp only [Option.some.injEq] at h
        exact Or.inl h.symm

end WinDevices

namespace WinDevices

/-- A port is present in the mapping exactly when at least one of the two
connection queries succeeds: the extended query, or the legacy fallback. -/
theorem processPort_isSome {k : HubKernel} {p : Nat}
    (h : (k.exQuery p).isSome ∨ (k.legacyQuery p).isSome) :
    (processPort k p).isSome := by
  unfold processPort
  cases hex : k.exQuery p with
  | some ce =>
    simp only
    by_cases hcon : (ce.connectionStatus != NoDeviceConnected) = true
    · rw [if_pos hcon]
      cases GetDriverKeyName true p (k.driverKey p) <;> simp
    · rw [if_neg hcon]
      simp
  | none =>
    rw [hex] at h
    replace h := h.resolve_left (by simp)
    obtain ⟨li, hli⟩ := Option.isSome_iff_exists.mp h
    simp only
    unfold queryLegacyConnectionInfo
    rw [hli]
    simp only
    by_cases hcon : (li.connectionStatus != NoDeviceConnected) = true
    · rw [if_pos hcon]
      cases GetDriverKeyName true p (k.driverKey p) <;> simp
    · rw [if_neg hcon]
      simp

/-- Membership in the connection-info mapping: entry (p, c) is present
exactly when p is a port in range 1..numberOfPorts whose loop body
produced c. -/
theorem mem_enumEntries {k : HubKernel} {N p : Nat} {c : HubConnectionInfo} :
    (p, c) ∈ enumEntries k N ↔ 1 ≤ p ∧ p ≤ N ∧ processPort k p = some c := by
  unfold enumEntries
  rw [List.mem_filterMap]
  constructor
  · rintro ⟨i, hi, hf⟩
    rw [List.mem_range] at hi
    cases hpp : processPort k (i + 1) with
    | none => rw [hpp] at hf; exact absurd hf (by simp)
    | some c2 =>
      rw [hpp] at hf
      simp only [Option.some.injEq, Prod.mk.injEq] at hf
      obtain ⟨h1, h2⟩ := hf
      subst h1
      subst h2
      exact ⟨by omega, by omega, hpp⟩
  · rintro ⟨h1, h2, hpp⟩
    refine ⟨p - 1, ?_, ?_⟩
    · rw [List.mem_range]; omega
    · have hp : p - 1 + 1 = p := by omega
      rw [hp, hpp]

/-- When every port in range answers at least one of the two queries, the
mapping carries exactly the keys 1..N, in order. -/
theorem enumEntries_total {k : HubKernel} :
    ∀ N : Nat, (∀ p, 1 ≤ p → p ≤ N → (processPort k p).isSome) →
      (enumEntries k N).map Prod.fst = List.range' 1 N := by
  intro N
  induction N with
  | zero => intro _; rfl
  | succ n ih =>
    intro hall
    obtain ⟨c, hc⟩ := Option.isSome_iff_exists.mp
      (hall (n + 1) (by omega) (by omega))
    have hstep : enumEntries k (n + 1) = enumEntries k n ++ [(n + 1, c)] := by
      unfold enumEntries
      rw [List.range_succ, List.filterMap_append]
      simp [hc]
    rw [hstep, List.map_append]
    rw [ih (fun p hp1 hp2 => hall p hp1 (by omega))]
    rw [List.range'_concat]
    simp [Nat.add_comm]

end WinDevices

/-- C1: the claim fails on the source.  In EnumeratePortsConnectionInfo a
port whose extended query and legacy fallback both fail is skipped by the
continue branch, so the call completes successfully while the mapping has
fewer entries than the hub's port count: with one port and both queries
failing, the mapping is empty instead of having exactly one entry. -/
theorem c1_counterexample :
    WinDevices.EnumeratePortsConnectionInfo true WinDevices.kAllQueriesFail 1 =
      Except.ok [] ∧
    ([] : List (Nat × WinDevices.HubConnectionInfo)).length ≠ 1 :=
  ⟨rfl, by decide⟩

/-- C1 (amended): for every hub with reported port count N, 1 ≤ N ≤ the
MaxPortsPerHub ceiling, on which EnumeratePortsConnectionInfo completes
successfully and in which every port 1..N answers the extended query or
the legacy fallback, the mapping has exactly N entries, its keys are
exactly 1..N in order, and each entry's stored connection index equals its
key.  Ports failing both queries are omitted from the mapping. -/
theorem c1_amended (k : WinDevices.HubKernel) (N : Nat)
    (h1 : 1 ≤ N) (h2 : N ≤ WinDevices.MaxPortsPerHub)
    (hall : ∀ p, 1 ≤ p → p ≤ N →
      ((k.exQuery p).isSome ∨ (k.legacyQuery p).isSome)) :
    ∃ l, WinDevices.EnumeratePortsConnectionInfo true k N = Except.ok l ∧
      l.length = N ∧
      l.map Prod.fst = List.range' 1 N ∧
      ∀ p c, (p, c) ∈ l → c.connectionIndex = p := by
  refine ⟨WinDevices.enumEntries k N, ?_, ?_, ?_, ?_⟩
  · unfold WinDevices.EnumeratePortsConnectionInfo
    rw [if_neg (by omega), if_neg (by push_neg; omega)]
    rfl
  · have hkeys := WinDevices.enumEntries_total N
      (fun p hp1 hp2 => WinDevices.processPort_isSome (hall p hp1 hp2))
    have := congrArg List.length hkeys
    simpa using this
  · exact WinDevices.enumEntries_total N
      (fun p hp1 hp2 => WinDevices.processPort_isSome (hall p hp1 hp2))
  · intro p c hmem
    have hpp := (WinDevices.mem_enumEntries.mp hmem).2.2
    rcases WinDevices.processPort_cases hpp with
      ⟨ce, _, hc | ⟨name, hc⟩⟩ | ⟨_, pr, hleg, hc | ⟨name, hc⟩⟩
    · subst hc; rfl
    · subst hc; rfl
    · subst hc
      exact (WinDevices.queryLegacy_fields hleg).choose_spec.2.1
    · subst hc
      exact (WinDevices.queryLegacy_fields hleg).choose_spec.2.1

/-- C1 (witness): the amended theorem applied to the fully successful
two-port kernel. -/
theorem c1_witness :
    ∃ l, WinDevices.EnumeratePortsConnectionInfo true WinDevices.kTwoPortsOk 2 =
        Except.ok l ∧
      l.length = 2 ∧
      l.map Prod.fst = List.range' 1 2 ∧
      ∀ p c, (p, c) ∈ l → c.connectionIndex = p :=
  c1_amended WinDevices.kTwoPortsOk 2 (by decide) (by decide)
    (fun _ _ _ => Or.inl rfl)

/-- C3: the claim fails on the source for getHubCapabilitiesEx.  When the
kernel query fails (or returns too few bytes), GetUsbHubNodeCapabilitiesEx
throws (THROW_HR_MSG at DeviceCommunication.cpp 104-107) instead of
returning a not-supported result, while GetUsbHubNodeInformationEx does
return normally with the support flag false. -/
theorem c3_counterexample :
    WinDevices.GetUsbHubNodeCapabilitiesEx
        { success := false, bytesReturned := 0, payload := 0 } =
      Except.error WinDevices.DevError.ioError ∧
    (WinDevices.GetUsbHubNodeInformationEx
        { success := false, bytesReturned := 0, payload := 0 }).isHubInfoExSupport
      = false :=
  ⟨rfl, rfl⟩

/-- C3 (amended): when the underlying kernel query is unsupported (fails
or returns fewer bytes than the structure size), getHubNodeInfoEx returns
normally with the support flag false and the port number defaulted, but
getHubCapabilitiesEx raises an error rather than returning a
not-supported result. -/
theorem c3_amended :
    (∀ resp : WinDevices.FixedQueryResponse,
      resp.success = false ∨ resp.bytesReturned < WinDevices.sizeofHubInformationEx →
        (WinDevices.GetUsbHubNodeInformationEx resp).isHubInfoExSupport = false ∧
        (WinDevices.GetUsbHubNodeInformationEx resp).highestPortNumber = 0) ∧
    (∀ resp : WinDevices.FixedQueryResponse,
      resp.success = false ∨ resp.bytesReturned < WinDevices.sizeofHubCapabilitiesEx →
        WinDevices.GetUsbHubNodeCapabilitiesEx resp =
          Except.error WinDevices.DevError.ioError) := by
  constructor
  · intro resp hresp
    have hsup : (resp.success &&
        decide (WinDevices.sizeofHubInformationEx ≤ resp.bytesReturned)) = false := by
      rcases hresp with hs | hb
      · rw [hs]; rfl
      · rw [Bool.and_eq_false_iff]
        right
        simpa using Nat.not_le_of_lt hb
    constructor
    · show (resp.success && _) = false
      exact hsup
    · show (if (resp.success && _) = true then resp.payload else 0) = 0
      rw [hsup]
      rfl
  · intro resp hresp
    unfold WinDevices.GetUsbHubNodeCapabilitiesEx
    rw [if_pos]
    rcases hresp with hs | hb
    · rw [hs]; rfl
    · rw [Bool.or_eq_true]
      right
      simpa using hb

/-- C3 (witness): the amended theorem applied to the failing kernel
response. -/
theorem c3_witness :
    (WinDevices.GetUsbHubNodeInformationEx
        { success := false, bytesReturned := 0, payload := 3 }).isHubInfoExSupport
        = false ∧
    (WinDevices.GetUsbHubNodeInformationEx
        { success := false, bytesReturned := 0, payload := 3 }).highestPortNumber
        = 0 ∧
    WinDevices.GetUsbHubNodeCapabilitiesEx
        { success := true, bytesReturned := 4, payload := 1 } =
      Except.error WinDevices.DevError.ioError :=
  ⟨(c3_amended.1 { success := false, bytesReturned := 0, payload := 3 }
      (Or.inl rfl)).1,
   (c3_amended.1 { success := false, bytesReturned := 0, payload := 3 }
      (Or.inl rfl)).2,
   c3_amended.2 { success := true, bytesReturned := 4, payload := 1 }
      (Or.inr (by decide))⟩

/-- C4: the claim fails on the source.  GetDriverKeyName with connection
index 0 fails with the typed invalid-argument error, not the typed I/O
error (DeviceCommunication.cpp 353-355). -/
theorem c4_counterexample :
    WinDevices.GetDriverKeyName true 0
        { phase1 := some 100, phase2 := some "DRVKEY" } =
      Except.error WinDevices.DevError.invalidArgument ∧
    WinDevices.DevError.invalidArgument ≠ WinDevices.DevError.ioError :=
  ⟨rfl, by decide⟩

/-- C4 (amended): getDriverKeyName validates before any kernel call —
index 0 fails with the invalid-argument error, and an invalid/unset handle
(with a nonzero index) fails with the invalid-handle error.
getExternalHubName performs no index or handle validation of its own and
fails with the typed I/O error exactly when the kernel sizing query
fails. -/
theorem c4_amended :
    (∀ (hv : Bool) (k : WinDevices.DriverKeyKernel),
      WinDevices.GetDriverKeyName hv 0 k =
        Except.error WinDevices.DevError.invalidArgument) ∧
    (∀ (i : Nat) (k : WinDevices.DriverKeyKernel), i ≠ 0 →
      WinDevices.GetDriverKeyName false i k =
        Except.error WinDevices.DevError.invalidHandle) ∧
    (∀ (i : Nat) (k : WinDevices.HubNameKernel), k.phase1 = none →
      WinDevices.GetUsbExternalHubName k i =
        Except.error WinDevices.DevError.ioError) := by
  refine ⟨fun hv k => rfl, fun i k hi => ?_, fun i k hk => ?_⟩
  · unfold WinDevices.GetDriverKeyName
    rw [if_neg hi]
    rfl
  · unfold WinDevices.GetUsbExternalHubName
    rw [hk]

/-- C4 (witness): the amended theorem applied at index 7 with a concrete
kernel oracle. -/
theorem c4_witness :
    WinDevices.GetDriverKeyName true 0
        { phase1 := none, phase2 := none } =
      Except.error WinDevices.DevError.invalidArgument ∧
    WinDevices.GetDriverKeyName false 7
        { phase1 := none, phase2 := none } =
      Except.error WinDevices.DevError.invalidHandle ∧
    WinDevices.GetUsbExternalHubName
        { phase1 := none, phase2 := none } 7 =
      Except.error WinDevices.DevError.ioError :=
  ⟨c4_amended.1 true { phase1 := none, phase2 := none },
   c4_amended.2.1 7 { phase1 := none, phase2 := none } (by decide),
   c4_amended.2.2 7 { phase1 := none, phase2 := none } rfl⟩

namespace WinDevices

/-- A successful EnumeratePortsConnectionInfo call returns exactly the
loop-built entries. -/
theorem enumerate_ok {hv : Bool} {k : HubKernel} {N : Nat}
    {l : List (Nat × HubConnectionInfo)}
    (h : EnumeratePortsConnectionInfo hv k N = Except.ok l) :
    l = enumEntries k N := by
  unfold EnumeratePortsConnectionInfo at h
  split_ifs at h
  exact (Except.ok.inj h).symm

/-- Speed stored for a record built from the primary extended query, in
the two cases of the claim: adjusted to SuperSpeed exactly when the
reported speed is HighSpeed and the V2 query succeeded with a
SuperSpeed-or-higher flag set; the reported speed otherwise. -/
theorem populate_speed_spec (ce : ConnInfoEx) (p : Nat) (v2 : Option V2Flags) :
    (ce.speed = UsbHighSpeed ∧ v2SaysSuper v2 = true →
      (populateConnectionInfo ce p v2).speed = UsbSuperSpeed) ∧
    (¬(ce.speed = UsbHighSpeed ∧ v2SaysSuper v2 = true) →
      (populateConnectionInfo ce p v2).speed = ce.speed) := by
  cases v2 with
  | none =>
    constructor
    · rintro ⟨_, hv2⟩
      exact absurd hv2 (by simp [v2SaysSuper])
    · intro _
      rw [populateConnectionInfo_speed]
  | some v =>
    by_cases hcond : ce.speed = UsbHighSpeed ∧
        (v.deviceIsOperatingAtSuperSpeedOrHigher ∨
         v.deviceIsOperatingAtSuperSpeedPlusOrHigher)
    · constructor
      · intro _
        rw [populateConnectionInfo_speed]
        simp only
        rw [if_pos hcond]
      · intro hn
        exfalso
        apply hn
        refine ⟨hcond.1, ?_⟩
        unfold v2SaysSuper
        exact Bool.or_eq_true _ _ ▸ (by exact hcond.2)
    · constructor
      · rintro ⟨hs, hv2⟩
        exfalso
        apply hcond
        refine ⟨hs, ?_⟩
        unfold v2SaysSuper at hv2
        exact (Bool.or_eq_true _ _) ▸ hv2
      · intro _
        rw [populateConnectionInfo_speed]
        simp only
        rw [if_neg hcond]

end WinDevices

/-- C8: for every port whose primary extended query succeeds during
EnumeratePortsConnectionInfo, the stored speed equals the speed reported
by that query, except exactly when it reports HighSpeed and the V2 query
succeeded with a SuperSpeed-or-higher (or SuperSpeedPlus-or-higher) flag
set, in which case the stored speed is SuperSpeed
(DeviceCommunication.cpp 235-243). -/
theorem c8_speed_adjustment (k : WinDevices.HubKernel) (N p : Nat)
    (l : List (Nat × WinDevices.HubConnectionInfo))
    (c : WinDevices.HubConnectionInfo) (ce : WinDevices.ConnInfoEx)
    (hok : WinDevices.EnumeratePortsConnectionInfo true k N = Except.ok l)
    (hmem : (p, c) ∈ l) (hex : k.exQuery p = some ce) :
    (ce.speed = WinDevices.UsbHighSpeed ∧
        WinDevices.v2SaysSuper (WinDevices.queryConnectionInfoV2 k p) = true →
      c.speed = WinDevices.UsbSuperSpeed) ∧
    (¬(ce.speed = WinDevices.UsbHighSpeed ∧
        WinDevices.v2SaysSuper (WinDevices.queryConnectionInfoV2 k p) = true) →
      c.speed = ce.speed) := by
  have hl := WinDevices.enumerate_ok hok
  subst hl
  have hpp := (WinDevices.mem_enumEntries.mp hmem).2.2
  rcases WinDevices.processPort_cases hpp with
    ⟨ce2, hex2, hc | ⟨name, hc⟩⟩ | ⟨hexn, _⟩
  · rw [hex] at hex2
    injection hex2 with hce
    subst hce
    subst hc
    exact WinDevices.populate_speed_spec ce p (WinDevices.queryConnectionInfoV2 k p)
  · rw [hex] at hex2
    injection hex2 with hce
    subst hce
    subst hc
    exact WinDevices.populate_speed_spec ce p (WinDevices.queryConnectionInfoV2 k p)
  · rw [hex] at hexn
    exact Option.noConfusion hexn

/-- C8 (witness): the theorem applied to kSuperAsHigh, whose primary query
reports HighSpeed on a device the V2 flags place at SuperSpeed or
higher. -/
theorem c8_witness :
    (WinDevices.ceHigh.speed = WinDevices.UsbHighSpeed ∧
        WinDevices.v2SaysSuper
          (WinDevices.queryConnectionInfoV2 WinDevices.kSuperAsHigh 1) = true →
      WinDevices.entrySuper.speed = WinDevices.UsbSuperSpeed) ∧
    (¬(WinDevices.ceHigh.speed = WinDevices.UsbHighSpeed ∧
        WinDevices.v2SaysSuper
          (WinDevices.queryConnectionInfoV2 WinDevices.kSuperAsHigh 1) = true) →
      WinDevices.entrySuper.speed = WinDevices.ceHigh.speed) :=
  c8_speed_adjustment WinDevices.kSuperAsHigh 1 1
    (WinDevices.enumEntries WinDevices.kSuperAsHigh 1) WinDevices.entrySuper
    WinDevices.ceHigh rfl (by decide) rfl

/-- C9: the claim fails on the source.  The pipe-count equality holds, but
the stored device address is copied from the kernel response without any
range or uniqueness validation: a kernel reporting address 0 on two
connected ports yields a successful enumeration whose connected entries
violate both the 1..127 range and per-hub uniqueness. -/
theorem c9_counterexample :
    WinDevices.EnumeratePortsConnectionInfo true WinDevices.kAddressZero 2 =
      Except.ok (WinDevices.enumEntries WinDevices.kAddressZero 2) ∧
    (WinDevices.enumEntries WinDevices.kAddressZero 2).length = 2 ∧
    (∀ pc ∈ WinDevices.enumEntries WinDevices.kAddressZero 2,
      pc.2.connectionStatus ≠ WinDevices.NoDeviceConnected) ∧
    ¬ WinDevices.connectedAddressesValid
        (WinDevices.enumEntries WinDevices.kAddressZero 2) :=
  ⟨rfl, by decide, by decide, by decide⟩

/-- C9 (amended): for every entry of a successfully populated mapping (in
particular every connected one), the stored numberOfOpenPipes equals the
length of the stored pipe list; the stored device address is the address
reported by whichever connection query succeeded, stored without range or
uniqueness validation. -/
theorem c9_amended (hv : Bool) (k : WinDevices.HubKernel) (N : Nat)
    (l : List (Nat × WinDevices.HubConnectionInfo))
    (hok : WinDevices.EnumeratePortsConnectionInfo hv k N = Except.ok l) :
    ∀ p c, (p, c) ∈ l →
      c.numberOfOpenPipes = c.pipeList.length ∧
      (∀ ce, k.exQuery p = some ce → c.deviceAddress = ce.deviceAddress) ∧
      (∀ leg, k.exQuery p = none → k.legacyQuery p = some leg →
        c.deviceAddress = leg.deviceAddress) := by
  have hl := WinDevices.enumerate_ok hok
  subst hl
  intro p c hmem
  have hpp := (WinDevices.mem_enumEntries.mp hmem).2.2
  rcases WinDevices.processPort_cases hpp with
    ⟨ce, hex, hc | ⟨name, hc⟩⟩ | ⟨hexn, pr, hleg, hc | ⟨name, hc⟩⟩
  · subst hc
    refine ⟨(WinDevices.populateConnectionInfo_fields ce p _).2.1, ?_, ?_⟩
    · intro ce2 hex2
      rw [hex] at hex2
      injection hex2 with hce
      subst hce
      rfl
    · intro leg hexn _
      rw [hex] at hexn
      exact Option.noConfusion hexn
  · subst hc
    refine ⟨(WinDevices.populateConnectionInfo_fields ce p
        (WinDevices.queryConnectionInfoV2 k p)).2.1, ?_, ?_⟩
    · intro ce2 hex2
      rw [hex] at hex2
      injection hex2 with hce
      subst hce
      rfl
    · intro leg hexn _
      rw [hex] at hexn
      exact Option.noConfusion hexn
  · subst hc
    obtain ⟨li, hli, _, hpipes, haddr, _, _⟩ := WinDevices.queryLegacy_fields hleg
    refine ⟨hpipes, ?_, ?_⟩
    · intro ce2 hex2
      rw [hexn] at hex2
      exact Option.noConfusion hex2
    · intro leg _ hleg2
      rw [hli] at hleg2
      injection hleg2 with hlg
      subst hlg
      exact haddr
  · subst hc
    obtain ⟨li, hli, _, hpipes, haddr, _, _⟩ := WinDevices.queryLegacy_fields hleg
    refine ⟨hpipes, ?_, ?_⟩
    · intro ce2 hex2
      rw [hexn] at hex2
      exact Option.noConfusion hex2
    · intro leg _ hleg2
      rw [hli] at hleg2
      injection hleg2 with hlg
      subst hlg
      exact haddr

/-- C9 (witness): the amended theorem applied to the two-port kernel with
two open pipes and a resolved driver key. -/
theorem c9_witness :
    WinDevices.entryTwoPorts.numberOfOpenPipes =
      WinDevices.entryTwoPorts.pipeList.length ∧
    (∀ ce, WinDevices.kTwoPortsOk.exQuery 1 = some ce →
      WinDevices.entryTwoPorts.deviceAddress = ce.deviceAddress) ∧
    (∀ leg, WinDevices.kTwoPortsOk.exQuery 1 = none →
      WinDevices.kTwoPortsOk.legacyQuery 1 = some leg →
      WinDevices.entryTwoPorts.deviceAddress = leg.deviceAddress) :=
  c9_amended true WinDevices.kTwoPortsOk 2
    (WinDevices.enumEntries WinDevices.kTwoPortsOk 2) rfl 1
    WinDevices.entryTwoPorts (by decide)

/-- C10: for every port populated through the legacy fallback (primary
extended query failed, legacy query succeeded), the stored speed is
LowSpeed when the legacy low-speed flag is set and FullSpeed otherwise; in
particular the legacy path never stores HighSpeed or SuperSpeed
(DeviceCommunication.cpp 287). -/
theorem c10_legacy_speed (k : WinDevices.HubKernel) (N p : Nat)
    (l : List (Nat × WinDevices.HubConnectionInfo))
    (c : WinDevices.HubConnectionInfo) (leg : WinDevices.LegacyConnInfo)
    (hok : WinDevices.EnumeratePortsConnectionInfo true k N = Except.ok l)
    (hmem : (p, c) ∈ l) (hexn : k.exQuery p = none)
    (hleg : k.legacyQuery p = some leg) :
    c.speed = (if leg.lowSpeed then WinDevices.UsbLowSpeed
               else WinDevices.UsbFullSpeed) ∧
    c.speed ≠ WinDevices.UsbHighSpeed ∧
    c.speed ≠ WinDevices.UsbSuperSpeed := by
  have hl := WinDevices.enumerate_ok hok
  subst hl
  have hpp := (WinDevices.mem_enumEntries.mp hmem).2.2
  rcases WinDevices.processPort_cases hpp with
    ⟨ce, hex, _⟩ | ⟨_, pr, hlegq, hc | ⟨name, hc⟩⟩
  · rw [hexn] at hex
    exact Option.noConfusion hex
  · subst hc
    obtain ⟨li, hli, _, _, _, _, hspeed⟩ := WinDevices.queryLegacy_fields hlegq
    rw [hli] at hleg
    injection hleg with hlg
    subst hlg
    refine ⟨hspeed, ?_, ?_⟩ <;> rw [hspeed] <;> cases li.lowSpeed <;> decide
  · subst hc
    obtain ⟨li, hli, _, _, _, _, hspeed⟩ := WinDevices.queryLegacy_fields hlegq
    rw [hli] at hleg
    injection hleg with hlg
    subst hlg
    have hspeed2 : ({ pr.1 with driverKeyName := name} :
        WinDevices.HubConnectionInfo).speed =
        (if li.lowSpeed then WinDevices.UsbLowSpeed
         else WinDevices.UsbFullSpeed) := hspeed
    refine ⟨hspeed2, ?_, ?_⟩ <;> rw [hspeed2] <;> cases li.lowSpeed <;> decide

/-- C10 (witness): the theorem applied to the kernel whose legacy fallback
reports a low-speed device on port 1. -/
theorem c10_witness :
    WinDevices.entryLegacy.speed =
      (if WinDevices.legLow.lowSpeed then WinDevices.UsbLowSpeed
       else WinDevices.UsbFullSpeed) ∧
    WinDevices.entryLegacy.speed ≠ WinDevices.UsbHighSpeed ∧
    WinDevices.entryLegacy.speed ≠ WinDevices.UsbSuperSpeed :=
  c10_legacy_speed WinDevices.kLegacyLow 1 1
    (WinDevices.enumEntries WinDevices.kLegacyLow 1) WinDevices.entryLegacy
    WinDevices.legLow rfl (by decide) rfl rfl

namespace WinDevices

/-- The Bool primitive and the walk's guard agree. -/
theorem isDescriptorInBounds_iff {mem : Nat → Nat} {dEnd pos : Nat} :
    isDescriptorInBounds mem dEnd pos = true ↔
      pos + 2 ≤ dEnd ∧ pos + mem pos ≤ dEnd ∧ mem pos ≠ 0 := by
  unfold isDescriptorInBounds
  split_ifs with h1 h2 h3
  · simp; omega
  · simp; omega
  · simp [h3]
  · simp; omega

/-- The walk stops with none as soon as the guard fails. -/
theorem walkInterfaceClass_stop {mem : Nat → Nat} {dEnd pos : Nat}
    (hn : ¬(pos + 2 ≤ dEnd ∧ pos + mem pos ≤ dEnd ∧ mem pos ≠ 0)) :
    walkInterfaceClass mem dEnd pos = none := by
  unfold walkInterfaceClass
  rw [dif_neg hn]

/-- At an in-bounds interface descriptor the walk returns the byte at
cursor offset 5 (the bInterfaceClass position). -/
theorem walkInterfaceClass_found {mem : Nat → Nat} {dEnd pos : Nat}
    (h : pos + 2 ≤ dEnd ∧ pos + mem pos ≤ dEnd ∧ mem pos ≠ 0)
    (ht : mem (pos + 1) = USB_INTERFACE_DESCRIPTOR_TYPE) :
    walkInterfaceClass mem dEnd pos = some (mem (pos + 5)) := by
  unfold walkInterfaceClass
  rw [dif_pos h, if_pos ht]

/-- At an in-bounds non-interface descriptor the walk advances by the
declared length. -/
theorem walkInterfaceClass_step {mem : Nat → Nat} {dEnd pos : Nat}
    (h : pos + 2 ≤ dEnd ∧ pos + mem pos ≤ dEnd ∧ mem pos ≠ 0)
    (ht : mem (pos + 1) ≠ USB_INTERFACE_DESCRIPTOR_TYPE) :
    walkInterfaceClass mem dEnd pos = walkInterfaceClass mem dEnd (pos + mem pos) := by
  conv_lhs => unfold walkInterfaceClass
  rw [dif_pos h, if_neg ht]

end WinDevices

/-- C6: the claim's termination half holds by construction — the walk is a
total function, defined by well-founded recursion on the distance to the
declared end — but its no-out-of-bounds-read half is violated by the
source: ExtractInterfaceClass returns the bInterfaceClass byte at cursor
offset 5 without checking that the descriptor's declared length covers it
(UsbDescriptorParser.cpp 24-28).  On a buffer of declared total length 11
whose single sub-descriptor has declared length 2 and the interface type
tag, the result depends on the byte at offset 14, past the declared end:
two memories agreeing on every offset below the declared end produce
different results. -/
theorem c6_out_of_bounds_read :
    WinDevices.extractInterfaceClass WinDevices.memOobZero = some 0 ∧
    WinDevices.extractInterfaceClass WinDevices.memOobSeven = some 7 ∧
    (List.range (WinDevices.wTotalLength WinDevices.memOobZero)).all
      (fun i => WinDevices.memOobZero i == WinDevices.memOobSeven i) = true := by
  refine ⟨?_, ?_, by decide⟩
  · unfold WinDevices.extractInterfaceClass
    rw [if_pos (by decide)]
    show WinDevices.walkInterfaceClass WinDevices.memOobZero 11 9 = some 0
    rw [WinDevices.walkInterfaceClass_found (by decide) (by decide)]
    decide
  · unfold WinDevices.extractInterfaceClass
    rw [if_pos (by decide)]
    show WinDevices.walkInterfaceClass WinDevices.memOobSeven 11 9 = some 7
    rw [WinDevices.walkInterfaceClass_found (by decide) (by decide)]
    decide

/-- C7: a sub-descriptor with declared length 0 is rejected by the bounds
primitive, so the chain walk of ExtractInterfaceClass terminates
immediately at that descriptor — the loop guard fails, no further
iteration runs — and the walk's result from that cursor is none rather
than a crash or an error (UsbDescriptorParser.cpp 192-196). -/
theorem c7_zero_length_stops (mem : Nat → Nat) (dEnd pos : Nat)
    (h : mem pos = 0) :
    WinDevices.isDescriptorInBounds mem dEnd pos = false ∧
    WinDevices.walkInterfaceClass mem dEnd pos = none := by
  constructor
  · simp [WinDevices.isDescriptorInBounds, h]
  · exact WinDevices.walkInterfaceClass_stop (fun hc => hc.2.2 h)

/-- C7 (witness): the theorem applied to the all-zero memory at cursor 2
with declared end 10. -/
theorem c7_witness :
    WinDevices.isDescriptorInBounds (fun _ => 0) 10 2 = false ∧
    WinDevices.walkInterfaceClass (fun _ => 0) 10 2 = none :=
  c7_zero_length_stops (fun _ => 0) 10 2 rfl

/-- C5: the claim fails on the source.  In UsbHub::AreUsbDescriptorsCorrect
every case of the switch ends in continue, so the trailing break is dead
code and the walk is not bounded to one iteration: with all three device
string indices zero, two buffers agreeing on the configuration header and
the entire first sub-descriptor (offsets 0..15) give different results,
decided by the iInterface byte of the third descriptor inspected
(UsbHub.cpp 188-239). -/
theorem c5_counterexample :
    WinDevices.areUsbDescriptorsCorrect WinDevices.ddNoStringIndices
      WinDevices.memChainFound = some true ∧
    WinDevices.areUsbDescriptorsCorrect WinDevices.ddNoStringIndices
      WinDevices.memChainNotFound = some false ∧
    (List.range 16).all
      (fun i => WinDevices.memChainFound i == WinDevices.memChainNotFound i)
      = true := by
  refine ⟨by decide, by decide, by decide⟩

/-- C5 (amended): with all three device-descriptor string indices zero,
the chain walk examines the whole chain rather than exiting after the
first descriptor: at every in-bounds descriptor that neither matches (its
string index is zero) nor is malformed — a configuration/other-speed
descriptor of the expected length with iConfiguration 0, an interface
descriptor of one of the two expected lengths with iInterface 0, or a
descriptor of any other type — the walk advances to the next descriptor
and continues. -/
theorem c5_amended (mem : Nat → Nat) (dEnd fuel pos : Nat)
    (hhdr : pos + 2 < dEnd) (hfit : pos + mem pos ≤ dEnd)
    (hnd :
      ((mem (pos + 1) = WinDevices.USB_CONFIGURATION_DESCRIPTOR_TYPE ∨
        mem (pos + 1) = WinDevices.USB_OTHER_SPEED_CONFIGURATION_DESCRIPTOR_TYPE) ∧
        mem pos = WinDevices.sizeofUsbConfigurationDescriptor ∧
        mem (pos + 6) = 0) ∨
      (mem (pos + 1) = WinDevices.USB_INTERFACE_DESCRIPTOR_TYPE ∧
        (mem pos = WinDevices.sizeofUsbInterfaceDescriptor ∨
         mem pos = WinDevices.sizeofUsbInterfaceDescriptor2) ∧
        mem (pos + 8) = 0) ∨
      (¬(mem (pos + 1) = WinDevices.USB_CONFIGURATION_DESCRIPTOR_TYPE ∨
         mem (pos + 1) = WinDevices.USB_OTHER_SPEED_CONFIGURATION_DESCRIPTOR_TYPE) ∧
        mem (pos + 1) ≠ WinDevices.USB_INTERFACE_DESCRIPTOR_TYPE)) :
    WinDevices.walkAreUsbDescriptorsCorrect mem dEnd (fuel + 1) pos =
      WinDevices.walkAreUsbDescriptorsCorrect mem dEnd fuel (pos + mem pos) := by
  conv_lhs => unfold WinDevices.walkAreUsbDescriptorsCorrect
  rw [if_pos ⟨hhdr, hfit⟩]
  rcases hnd with ⟨htype, hlen, hidx⟩ | ⟨htype, hlen, hidx⟩ | ⟨hne27, hne4⟩
  · rw [if_pos htype, if_neg (by simp [hlen]), if_neg (by simp [hidx])]
  · rw [if_neg ?hnotcfg, if_pos htype, if_neg ?hlenok, if_neg (by simp [hidx])]
    case hnotcfg =>
      rw [htype]
      decide
    case hlenok =>
      rcases hlen with hl | hl <;> simp [hl]
  · rw [if_neg hne27, if_neg hne4]

/-- C5 (amended witness): the amended theorem applied at the configuration
header of the chain buffer: the walk proceeds past it to offset 9. -/
theorem c5_witness :
    WinDevices.walkAreUsbDescriptorsCorrect WinDevices.memChainFound 25 25 0 =
      WinDevices.walkAreUsbDescriptorsCorrect WinDevices.memChainFound 25 24
        (0 + WinDevices.memChainFound 0) :=
  c5_amended WinDevices.memChainFound 25 24 0 (by decide) (by decide)
    (Or.inl (by decide))

namespace WinDevices

/-- In the first port loop an error raised while processing a port — after
any number of error-free earlier ports — propagates out of the whole loop:
the remaining ports are never reached. -/
theorem processOrchPorts_error_propagates
    (go : Nat → Except DevError (List Nat)) :
    ∀ (pre : List (Nat × PortView)) (l : List Nat) (n : Nat) (pv : PortView)
      (post : List (Nat × PortView)) (e : DevError),
      processOrchPorts go pre = Except.ok l →
      processOrchPort go pv = Except.error e →
      processOrchPorts go (pre ++ (n, pv) :: post) = Except.error e := by
  intro pre
  induction pre with
  | nil =>
    intro l n pv post e _ hfail
    show processOrchPorts go ((n, pv) :: post) = Except.error e
    unfold processOrchPorts
    rw [hfail]
  | cons hd tl ih =>
    intro l n pv post e hpre hfail
    obtain ⟨m, pvh⟩ := hd
    unfold processOrchPorts at hpre
    cases hh : processOrchPort go pvh with
    | error e2 =>
      rw [hh] at hpre
      exact Except.noConfusion hpre
    | ok recs =>
      rw [hh] at hpre
      simp only at hpre
      cases htl : processOrchPorts go tl with
      | error e2 =>
        rw [htl] at hpre
        exact Except.noConfusion hpre
      | ok recs2 =>
        show processOrchPorts go ((m, pvh) :: (tl ++ (n, pv) :: post)) =
          Except.error e
        unfold processOrchPorts
        rw [hh]
        simp only
        rw [ih recs2 n pv post e htl hfail]

end WinDevices

/-- C2: the claim fails on the source.  The per-port loop of
EnumeratePortsFromRootHub has no exception handler (DevicesManager.cpp
117-210), and neither does the controller loop of EnumerateUsbDevices
(364-381): a failure while opening or populating a child hub propagates
out of the whole enumeration.  Concretely, with a root hub whose port 1
hosts a child hub that fails to populate and whose port 2 carries a
connected non-hub device with a stored descriptor record, the enumeration
returns the error and port 2's record — which the hub would otherwise
contribute — is lost. -/
theorem c2_counterexample :
    WinDevices.enumeratePortsFromRootHub WinDevices.kChildHubFails 3 0 =
      Except.error WinDevices.DevError.ioError ∧
    WinDevices.ownRecords WinDevices.portsRootC2 = [42] :=
  ⟨rfl, rfl⟩

/-- C2 (amended): a failure while processing a port's subtree is not
caught inside the Orchestrator: whenever populating the hub yields a port
list in which some port's subtree processing fails with error e and all
earlier ports process without error, the whole call to
EnumeratePortsFromRootHub fails with e, so the remaining sibling ports are
not processed and contribute nothing.  Only the driver-key retrieval
inside the transport and the per-device handlers of the separate
registry-class pass swallow failures. -/
theorem c2_amended (k : WinDevices.OrchKernel) (fuel hubPath n : Nat)
    (pv : WinDevices.PortView) (pre post : List (Nat × WinDevices.PortView))
    (l : List Nat) (e : WinDevices.DevError)
    (hports : k.populateHub hubPath = Except.ok (pre ++ (n, pv) :: post))
    (hpre : WinDevices.processOrchPorts
      (WinDevices.enumeratePortsFromRootHub k fuel) pre = Except.ok l)
    (hfail : WinDevices.processOrchPort
      (WinDevices.enumeratePortsFromRootHub k fuel) pv = Except.error e) :
    WinDevices.enumeratePortsFromRootHub k (fuel + 1) hubPath =
      Except.error e := by
  unfold WinDevices.enumeratePortsFromRootHub
  rw [hports]
  simp only
  rw [WinDevices.processOrchPorts_error_propagates
    (WinDevices.enumeratePortsFromRootHub k fuel) pre l n pv post e hpre hfail]

/-- C2 (witness): the amended theorem applied to the failing child-hub
scenario with port 2 still pending. -/
theorem c2_witness :
    WinDevices.enumeratePortsFromRootHub WinDevices.kChildHubFails (1 + 1) 0 =
      Except.error WinDevices.DevError.ioError :=
  c2_amended WinDevices.kChildHubFails 1 0 1 WinDevices.pvChildHub []
    [(2, WinDevices.pvLeafDevice)] [] WinDevices.DevError.ioError rfl rfl rfl
